import Mathlib

/-!
Verification of the SQLConnector repository (`src/connector.py`).

The Python source is shallowly embedded below.  Rows are kept abstract
(a type parameter `α`), since the program treats them opaquely.  The
backend drivers (`sqlite3` / `psycopg2`) are modelled as a row cursor:
`Cursor.pending` is the sequence of rows the open statement's cursor will
still yield, and `fetchmany(size=n)` is `take n` / `drop n` on it.
Backend sessions are tracked by a `World` that allocates fresh session
ids for each driver `connect(...)` call and records which sessions have
been closed; `connection.close()` on an already-closed connection is a
documented no-op in both drivers, so closing is modelled as inserting the
session id into the closed set at most once.
-/

namespace SQLConnector

/-- `ResultTableModel.ROWS_COUNT = 25` (the display/reveal batch). -/
def ROWS_COUNT : Int := 25

/-- The fetch batch literal `size=1000` used in `Connector.get_data`. -/
def FETCH_BATCH : Nat := 1000

/-- The two driver modules in `get_connector`'s table. -/
inductive DbType where
  | sqlite3
  | postgres
deriving DecidableEq

/-- The Python exception classes that the program can raise or catch. -/
inductive PyErr where
  | attributeError
  | keyError
  | sqliteOperationalError
  | psycopgProgrammingError
  | psycopgOperationalError
deriving DecidableEq

/-- A DB-API cursor after `cursor.execute(query)`: its `description`
(list of column descriptors, of which the code uses item 0, the name;
`None` when the statement produced no result set) and the rows it will
still yield. -/
structure Cursor (α : Type) where
  description : Option (List (String × String))
  pending : List α
deriving DecidableEq

/-- Session allocation state of the backend drivers: `nextId` is the id
the next `connect(...)` call returns, `closedIds` records the sessions
that have been closed. -/
structure World where
  nextId : Nat
  closedIds : List Nat
deriving DecidableEq

/-- Driver-level `connection.close()`: closing an already-closed
connection is a no-op in both sqlite3 and psycopg2, so a session id is
recorded as closed at most once. -/
def World.closeSession (w : World) (sid : Nat) : World :=
  if sid ∈ w.closedIds then w else { w with closedIds := sid :: w.closedIds }

/-- `Connector.__init__`: stores the connection string and the driver
module; `self.description = None` and `self.connect = None`.  The
`cursor` attribute does not exist until `execute` creates it, which is
modelled by `cursor := none`. -/
structure Connector (α : Type) where
  connstring : String
  connector : DbType
  description : Option (List (String × String))
  connect : Option Nat
  cursor : Option (Cursor α)
deriving DecidableEq

def Connector.init (connstring : String) (db_type : DbType) : Connector α :=
  { connstring := connstring
    connector := db_type
    description := none
    connect := none
    cursor := none }

/-- `Connector.execute`: `self.connect = self.connector.connect(self.connstring)`
opens a fresh backend session (a new id from the world), then
`self.cursor = self.connect.cursor()` and `self.cursor.execute(query)`
bind the statement's cursor; `self.connect.commit()` has no modelled
observable.  `result` is the backend's cursor state for this statement. -/
def Connector.execute (c : Connector α) (w : World) (result : Cursor α) :
    World × Connector α :=
  ({ w with nextId := w.nextId + 1 },
   { c with connect := some w.nextId, cursor := some result })

/-- `Connector.get_headers`: `if self.cursor.description:` is Python
truthiness (both `None` and an empty list are falsy), in which case the
method returns `None`; otherwise it returns `[col[0] for col in
self.cursor.description]`.  Reading `self.cursor` before any `execute`
raises `AttributeError`. -/
def Connector.get_headers (c : Connector α) : Except PyErr (Option (List String)) :=
  match c.cursor with
  | none => .error .attributeError
  | some cur =>
    match cur.description with
    | some (d :: ds) => .ok (some ((d :: ds).map Prod.fst))
    | _ => .ok none

/-- `Connector.get_data`: `return self.cursor.fetchmany(size=1000)` —
yields the next (up to) 1000 pending rows and advances the cursor.
Reading `self.cursor` before any `execute` raises `AttributeError`. -/
def Connector.get_data (c : Connector α) : Except PyErr (List α × Connector α) :=
  match c.cursor with
  | none => .error .attributeError
  | some cur =>
    .ok (cur.pending.take FETCH_BATCH,
         { c with cursor := some { cur with pending := cur.pending.drop FETCH_BATCH } })

/-- `Connector.__del__`: `if self.connect: self.connect.close()`.
Connection objects have default truthiness, so the guard is exactly
"a session handle was bound"; the handle is not cleared afterwards. -/
def Connector.del (c : Connector α) (w : World) : World × Connector α :=
  match c.connect with
  | some sid => (w.closeSession sid, c)
  | none => (w, c)

/-- `k` successive `execute` calls on the same Connector. -/
def execIter (cur : Cursor α) : Nat → World × Connector α → World × Connector α
  | 0, wc => wc
  | k + 1, wc => execIter cur k (wc.2.execute wc.1 cur)

/-- `k` successive `__del__` invocations on the same Connector. -/
def delIter : Nat → World × Connector α → World × Connector α
  | 0, wc => wc
  | k + 1, wc => delIter k (wc.2.del wc.1)

/-- The exception classes caught by `on_click`'s `except` clauses:
`(psycopg2.ProgrammingError, sqlite3.OperationalError)` and
`psycopg2.OperationalError`.  Anything else propagates uncaught. -/
def handled (e : PyErr) : Bool :=
  match e with
  | .psycopgProgrammingError | .sqliteOperationalError | .psycopgOperationalError => true
  | _ => false

/-- `get_connector`: looks `dbType` up in the dict
`{'sqlite3': sqlite3, 'postgres': psycopg2}`; a missing key raises
`KeyError`. -/
def get_connector (dbType : String) (connstring : String) :
    Except PyErr (Connector α) :=
  if dbType = "sqlite3" then .ok (Connector.init connstring .sqlite3)
  else if dbType = "postgres" then .ok (Connector.init connstring .postgres)
  else .error .keyError

end SQLConnector

namespace SQLConnector

/-- C10: on a Connector on which `execute` has never been called, the
`cursor` attribute does not exist, so `get_headers` and `get_data` raise
`AttributeError`; that exception class is not among those caught by
`on_click`'s `except` clauses, so the precondition is unguarded rather
than reported through the error taxonomy. -/
theorem fresh_connector_attribute_error (α : Type) (cs : String) (t : DbType) :
    (Connector.init (α := α) cs t).cursor = none
    ∧ (Connector.init (α := α) cs t).get_headers = .error .attributeError
    ∧ (Connector.init (α := α) cs t).get_data = .error .attributeError
    ∧ handled .attributeError = false := by
  refine ⟨rfl, rfl, rfl, rfl⟩

/-- C3 counterexample: `execute` begins with
`self.connect = self.connector.connect(self.connstring)` unconditionally,
so a second `execute` on the same Connector binds a *fresh* session
(id 1) instead of reusing session 0, and session 0 is never closed: after
two `execute` calls two sessions have been opened and none closed, so two
live sessions exist at once. -/
theorem execute_opens_fresh_session_cex :
    let s1 := (Connector.init (α := Unit) ":memory:" .sqlite3).execute ⟨0, []⟩ ⟨none, []⟩
    let s2 := s1.2.execute s1.1 ⟨none, []⟩
    s2.2.connect ≠ s1.2.connect
    ∧ s1.2.connect = some 0
    ∧ s2.2.connect = some 1
    ∧ s2.1.nextId = 2
    ∧ s2.1.closedIds = [] := by
  decide

/-- C3 (amended): every `execute` call opens a fresh backend session and
rebinds the Connector's handle to it; after `k + 1` successive `execute`
calls starting from world `w`, the Connector holds the last session
opened (`w.nextId + k`), `k + 1` sessions have been opened, and none of
them has been closed by the Connector (the superseded sessions leak). -/
theorem execute_always_opens_new_session (α : Type) (cur : Cursor α)
    (c : Connector α) (w : World) (k : Nat) :
    (execIter cur (k + 1) (w, c)).2.connect = some (w.nextId + k)
    ∧ (execIter cur (k + 1) (w, c)).1.nextId = w.nextId + k + 1
    ∧ (execIter cur (k + 1) (w, c)).1.closedIds = w.closedIds := by
  induction k generalizing w c with
  | zero => exact ⟨rfl, rfl, rfl⟩
  | succ k ih =>
    obtain ⟨ih1, ih2, ih3⟩ := ih (w := { w with nextId := w.nextId + 1 })
      (c := { c with connect := some w.nextId, cursor := some cur })
    refine ⟨?_, ?_, ?_⟩
    · show (execIter cur (k + 1) ({ w with nextId := w.nextId + 1 },
        { c with connect := some w.nextId, cursor := some cur })).2.connect = _
      rw [ih1]
      exact congrArg some (show w.nextId + 1 + k = w.nextId + (k + 1) from by omega)
    · show (execIter cur (k + 1) ({ w with nextId := w.nextId + 1 },
        { c with connect := some w.nextId, cursor := some cur })).1.nextId = _
      rw [ih2]
      show w.nextId + 1 + k + 1 = w.nextId + (k + 1) + 1
      omega
    · show (execIter cur (k + 1) ({ w with nextId := w.nextId + 1 },
        { c with connect := some w.nextId, cursor := some cur })).1.closedIds = _
      rw [ih3]

/-- Once the Connector's bound session is already recorded closed,
further `__del__` calls change nothing (driver-level `close()` on a
closed connection is a no-op). -/
theorem delIter_fixed (α : Type) (m : Nat) (w : World) (c : Connector α)
    (h : ∀ sid, c.connect = some sid → sid ∈ w.closedIds) :
    delIter m (w, c) = (w, c) := by
  induction m with
  | zero => rfl
  | succ m ih =>
    have hdel : c.del w = (w, c) := by
      unfold Connector.del
      cases hc : c.connect with
      | none => rfl
      | some sid =>
        have := h sid hc
        simp [World.closeSession, this]
    show delIter m (c.del w) = (w, c)
    rw [hdel]
    exact ih

/-- C9: `__del__` (the program's `close()`) is idempotent and safe.
First part: on a Connector whose session was never opened
(`self.connect is None`), any number of `__del__` calls is a no-op and
does not fail.  Second part: after an `execute` opened session `n0`, any
positive number of `__del__` calls releases that session exactly once
(the guard `if self.connect:` fires, and the driver-level `close()` on an
already-closed connection is a documented no-op in both sqlite3 and
psycopg2, so no double release occurs). -/
theorem del_idempotent_single_release (α : Type) :
    (∀ (n : Nat) (cs : String) (t : DbType) (w : World),
      delIter n (w, Connector.init (α := α) cs t) = (w, Connector.init cs t))
    ∧ (∀ (n n0 : Nat) (cs : String) (t : DbType) (cur : Cursor α),
      (delIter (n + 1)
        ((Connector.init (α := α) cs t).execute ⟨n0, []⟩ cur)).1.closedIds = [n0]) := by
  constructor
  · intro n cs t w
    exact delIter_fixed α n w _ (fun sid hsid => by simp [Connector.init] at hsid)
  · intro n n0 cs t cur
    have h1 : ((Connector.init (α := α) cs t).execute ⟨n0, []⟩ cur).2.del
        ((Connector.init (α := α) cs t).execute ⟨n0, []⟩ cur).1
        = (⟨n0 + 1, [n0]⟩, ((Connector.init (α := α) cs t).execute ⟨n0, []⟩ cur).2) := by
      simp [Connector.init, Connector.execute, Connector.del, World.closeSession]
    have h2 : delIter (n + 1) ((Connector.init (α := α) cs t).execute ⟨n0, []⟩ cur)
        = delIter n (⟨n0 + 1, [n0]⟩,
            ((Connector.init (α := α) cs t).execute ⟨n0, []⟩ cur).2) := by
      show delIter n _ = _
      rw [h1]
    rw [h2, delIter_fixed α n _ _ ?_]
    intro sid hsid
    simp [Connector.init, Connector.execute] at hsid
    simp [hsid]

/-- Page length of a successful `get_data` result. -/
def pageLength (r : Except PyErr (List α × Connector α)) : Option Nat :=
  r.toOption.map (fun p => p.1.length)

/-- Rows still pending in the connector's cursor after a successful
`get_data` call. -/
def remainingAfter (r : Except PyErr (List α × Connector α)) : Option Nat :=
  (r.toOption.bind (fun p => p.2.cursor)).map (fun cur => cur.pending.length)

set_option maxRecDepth 100000 in
/-- C5 counterexample: a cursor holding exactly `FETCH_BATCH` (1000)
rows.  `get_data` returns a full page of 1000 rows — *not* fewer than
`FETCH_BATCH` — yet the backend cursor is now exhausted (0 rows remain),
so "fewer than FETCH_BATCH rows if and only if the backend cursor is
exhausted" fails in the only-if direction. -/
theorem get_data_full_page_exhausted_cex :
    pageLength (Connector.get_data
        ⟨":memory:", .sqlite3, none, some 0,
          some ⟨some [("x", "")], List.replicate 1000 ()⟩⟩) = some 1000
    ∧ remainingAfter (Connector.get_data
        ⟨":memory:", .sqlite3, none, some 0,
          some ⟨some [("x", "")], List.replicate 1000 ()⟩⟩) = some 0 := by
  decide

/-- C5 (amended): after an `execute` bound a cursor, `get_data` returns
the next `take FETCH_BATCH` pending rows and advances the cursor by
`drop FETCH_BATCH`.  The page never has more than `FETCH_BATCH` rows; it
has fewer than `FETCH_BATCH` iff fewer than `FETCH_BATCH` rows remained
before the call, in which case the cursor is exhausted afterwards (a
cursor holding exactly `FETCH_BATCH` rows instead yields a full page and
is only seen to be exhausted on the next call); and once the cursor is
exhausted, `get_data` returns the empty page with no error and leaves
the connector unchanged, so every later call does the same. -/
theorem get_data_paging (α : Type) (c : Connector α) (cur : Cursor α)
    (h : c.cursor = some cur) :
    c.get_data = .ok (cur.pending.take FETCH_BATCH,
        { c with cursor := some { cur with pending := cur.pending.drop FETCH_BATCH } })
    ∧ (cur.pending.take FETCH_BATCH).length ≤ FETCH_BATCH
    ∧ ((cur.pending.take FETCH_BATCH).length < FETCH_BATCH ↔
        cur.pending.length < FETCH_BATCH)
    ∧ ((cur.pending.take FETCH_BATCH).length < FETCH_BATCH →
        cur.pending.drop FETCH_BATCH = [])
    ∧ (cur.pending = [] → c.get_data = .ok ([], c)) := by
  obtain ⟨d, p⟩ := cur
  obtain ⟨cs, t, desc, conn, curs⟩ := c
  change curs = some ⟨d, p⟩ at h
  subst h
  refine ⟨rfl, ?_, ?_, ?_, ?_⟩
  · simp [List.length_take]
  · simp [List.length_take]
  · intro hlt
    rw [List.length_take] at hlt
    rw [List.drop_eq_nil_iff]
    simp only [FETCH_BATCH] at hlt ⊢
    omega
  · intro hnil
    change p = [] at hnil
    subst hnil
    rfl

/-- C5 witness: `get_data` on a one-row cursor. -/
theorem get_data_paging_witness :
    Connector.get_data (α := Unit) ⟨":memory:", .sqlite3, none, some 0, some ⟨none, [()]⟩⟩
      = .ok ([()], ⟨":memory:", .sqlite3, none, some 0, some ⟨none, []⟩⟩) := by
  exact (get_data_paging Unit ⟨":memory:", .sqlite3, none, some 0, some ⟨none, [()]⟩⟩
    ⟨none, [()]⟩ rfl).1

/-- `ResultTableModel` state: `self.data` (the materialized rows),
`self.headers`, `self.rowsLoaded` (a Python int), and `self.datasource`
(`None`, or the attached Connector flattened to the rows its cursor will
still yield). -/
structure ResultTableModel (α : Type) where
  data : List α
  headers : List String
  rowsLoaded : Int
  datasource : Option (List α)
deriving DecidableEq

/-- `ResultTableModel.__init__`: stores `data`, `headers`, `datasource`
and sets `self.rowsLoaded = ResultTableModel.ROWS_COUNT` (= 25). -/
def ResultTableModel.init (data : List α) (headers : List String)
    (datasource : Option (List α)) : ResultTableModel α :=
  { data := data, headers := headers, rowsLoaded := ROWS_COUNT, datasource := datasource }

/-- `rowCount`: `len(self.data)` if `len(self.data) <= self.rowsLoaded`,
else `self.rowsLoaded`. -/
def ResultTableModel.rowCount (s : ResultTableModel α) : Int :=
  if (s.data.length : Int) ≤ s.rowsLoaded then s.data.length else s.rowsLoaded

/-- `columnCount`: `len(self.headers)`. -/
def ResultTableModel.columnCount (s : ResultTableModel α) : Nat :=
  s.headers.length

/-- `addRecords`: `self.data += self.datasource.get_data()` — appends
the connector's next fetch batch (`fetchmany(size=1000)` on the pending
rows `rem`) and advances the connector's cursor.  The `beginResetModel`
/ `endResetModel` signals have no modelled observable. -/
def ResultTableModel.addRecords (s : ResultTableModel α) (rem : List α) :
    ResultTableModel α :=
  { s with data := s.data ++ rem.take FETCH_BATCH, datasource := some (rem.drop FETCH_BATCH) }

/-- `canFetchMore`: returns `True` if `len(self.data) > self.rowsLoaded`;
otherwise, if a datasource is attached, calls `self.addRecords()` (a
mutation!) and returns `False` unconditionally.  The returned pair is
(return value, model state after the call). -/
def ResultTableModel.canFetchMore (s : ResultTableModel α) :
    Bool × ResultTableModel α :=
  if (s.data.length : Int) > s.rowsLoaded then (true, s)
  else
    match s.datasource with
    | some rem => (false, s.addRecords rem)
    | none => (false, s)

/-- `fetchMore`: `reminder = len(self.data) - self.rowsLoaded` (Python
int subtraction), `itemsToFetch = min(reminder, ROWS_COUNT)`,
`self.rowsLoaded += itemsToFetch`.  The `beginInsertRows` /
`endInsertRows` signals have no modelled observable. -/
def ResultTableModel.fetchMore (s : ResultTableModel α) : ResultTableModel α :=
  let reminder : Int := (s.data.length : Int) - s.rowsLoaded
  let itemsToFetch := min reminder ROWS_COUNT
  { s with rowsLoaded := s.rowsLoaded + itemsToFetch }

/-- The boolean `canFetchMore` returns is exactly
`len(self.data) > self.rowsLoaded`, whether or not a fetch happened. -/
theorem canFetchMore_fst (s : ResultTableModel α) :
    s.canFetchMore.1 = decide ((s.data.length : Int) > s.rowsLoaded) := by
  unfold ResultTableModel.canFetchMore
  by_cases h : (s.data.length : Int) > s.rowsLoaded
  · simp [h]
  · cases hds : s.datasource <;> simp [h, hds]

/-- C2 counterexample: a model with 25 materialized, 25 revealed rows
(`revealed = materialized`) and an attached, unexhausted Connector
holding 30 more rows.  The single `canFetchMore` call fetches the batch
(materialized grows to 55 > 25 revealed, so growth is now possible) yet
returns `false` — it does not re-evaluate after materializing. -/
theorem canFetchMore_no_reevaluation_cex :
    ((ResultTableModel.init (List.replicate 25 ()) ["h"]
        (some (List.replicate 30 ()))).canFetchMore).1 = false
    ∧ ((ResultTableModel.init (List.replicate 25 ()) ["h"]
        (some (List.replicate 30 ()))).canFetchMore).2.data.length = 55
    ∧ ((ResultTableModel.init (List.replicate 25 ()) ["h"]
        (some (List.replicate 30 ()))).canFetchMore).2.rowsLoaded = 25 := by
  decide

/-- C2 (amended): when `revealed` has caught up with the materialized
rows (`len(data) <= rowsLoaded`) and a datasource is attached, a single
`canFetchMore` call triggers exactly one `addRecords`, appending one
`fetchmany(FETCH_BATCH)` page to `data` and advancing the connector's
cursor; no exhausted flag exists (an exhausted connector just appends
nothing on later calls); the call returns `false` unconditionally
without re-evaluating, and only the *next* `canFetchMore` call reports
whether growth is now possible (`len(data) > rowsLoaded`). -/
theorem canFetchMore_fetch_branch (α : Type) (s : ResultTableModel α) (rem : List α)
    (hds : s.datasource = some rem)
    (hfull : ¬ ((s.data.length : Int) > s.rowsLoaded)) :
    s.canFetchMore = (false, s.addRecords rem)
    ∧ (s.addRecords rem).data = s.data ++ rem.take FETCH_BATCH
    ∧ (s.addRecords rem).datasource = some (rem.drop FETCH_BATCH)
    ∧ (s.addRecords rem).rowsLoaded = s.rowsLoaded
    ∧ (s.addRecords rem).headers = s.headers
    ∧ ((s.addRecords rem).canFetchMore.1 = true ↔
        ((s.data.length : Int) + ((rem.take FETCH_BATCH).length : Int) > s.rowsLoaded)) := by
  refine ⟨?_, rfl, rfl, rfl, rfl, ?_⟩
  · unfold ResultTableModel.canFetchMore
    rw [if_neg hfull, hds]
  · rw [canFetchMore_fst]
    simp only [ResultTableModel.addRecords, List.length_append, decide_eq_true_eq]
    push_cast
    constructor <;> (intro h; omega)

/-- C2 witness: the fetch branch at the counterexample state returns
`false`. -/
theorem canFetchMore_fetch_branch_witness :
    ((ResultTableModel.init (α := Unit) (List.replicate 25 ()) ["h"]
        (some (List.replicate 30 ()))).canFetchMore).1 = false := by
  rw [(canFetchMore_fetch_branch Unit
    (ResultTableModel.init (List.replicate 25 ()) ["h"] (some (List.replicate 30 ())))
    (List.replicate 30 ()) rfl (by decide)).1]

/-- The mutating operations the display layer can invoke on a
`ResultTableModel`. -/
inductive ModelOp where
  | canFetchMore
  | fetchMore

def applyOp (s : ResultTableModel α) : ModelOp → ResultTableModel α
  | .canFetchMore => s.canFetchMore.2
  | .fetchMore => s.fetchMore

def runOps (s : ResultTableModel α) (ops : List ModelOp) : ResultTableModel α :=
  ops.foldl applyOp s

theorem rowCount_le_length (s : ResultTableModel α) :
    s.rowCount ≤ (s.data.length : Int) := by
  unfold ResultTableModel.rowCount
  split <;> omega

theorem canFetchMore_snd_headers (s : ResultTableModel α) :
    s.canFetchMore.2.headers = s.headers := by
  obtain ⟨d, hs, r, ds⟩ := s
  unfold ResultTableModel.canFetchMore
  split
  · rfl
  · cases ds <;> rfl

theorem canFetchMore_snd_extends (s : ResultTableModel α) :
    s.data <+: s.canFetchMore.2.data := by
  obtain ⟨d, hs, r, ds⟩ := s
  unfold ResultTableModel.canFetchMore
  split
  · exact List.prefix_rfl
  · cases ds with
    | none => exact List.prefix_rfl
    | some rem => exact List.prefix_append _ _

theorem applyOp_headers (s : ResultTableModel α) (op : ModelOp) :
    (applyOp s op).headers = s.headers := by
  cases op with
  | canFetchMore => exact canFetchMore_snd_headers s
  | fetchMore => rfl

theorem applyOp_extends (s : ResultTableModel α) (op : ModelOp) :
    s.data <+: (applyOp s op).data := by
  cases op with
  | canFetchMore => exact canFetchMore_snd_extends s
  | fetchMore => exact List.prefix_rfl

theorem runOps_headers (s0 : ResultTableModel α) (ops : List ModelOp) :
    (runOps s0 ops).headers = s0.headers := by
  induction ops generalizing s0 with
  | nil => rfl
  | cons op ops ih =>
    show (runOps (applyOp s0 op) ops).headers = _
    rw [ih (applyOp s0 op), applyOp_headers]

theorem runOps_extends (s0 : ResultTableModel α) (ops : List ModelOp) :
    s0.data <+: (runOps s0 ops).data := by
  induction ops generalizing s0 with
  | nil => exact List.prefix_rfl
  | cons op ops ih =>
    exact (applyOp_extends s0 op).trans (ih (applyOp s0 op))

/-- C4: along every sequence of `canFetchMore` / `fetchMore` operations
from any starting model, the revealed count reported by `rowCount` never
exceeds the number of materialized rows, `headers` never changes, and
the materialized rows are only ever appended to (the initial rows stay a
prefix, never reordered or dropped). -/
theorem model_invariants (α : Type) (s0 : ResultTableModel α) (ops : List ModelOp) :
    (runOps s0 ops).rowCount ≤ (((runOps s0 ops).data.length : Nat) : Int)
    ∧ (runOps s0 ops).headers = s0.headers
    ∧ s0.data <+: (runOps s0 ops).data :=
  ⟨rowCount_le_length _, runOps_headers s0 ops, runOps_extends s0 ops⟩

/-- One `{canFetchMore; fetchMore}` cycle as the Qt view drives it:
`fetchMore` is invoked exactly when `canFetchMore` returned `True`.
Returns (state after the cycle, the boolean `canFetchMore` returned). -/
def cycle (s : ResultTableModel α) : ResultTableModel α × Bool :=
  let r := s.canFetchMore
  if r.1 then (r.2.fetchMore, true) else (r.2, false)

/-- The model state after `k` successive cycles. -/
def runCycles (s : ResultTableModel α) : Nat → ResultTableModel α
  | 0 => s
  | k + 1 => (cycle (runCycles s k)).1

/-- How many of the first `k` cycles had `canFetchMore` return `True`
(equivalently: how many invoked `fetchMore`). -/
def growCount (s : ResultTableModel α) : Nat → Nat
  | 0 => 0
  | k + 1 => growCount s k + (if (cycle (runCycles s k)).2 then 1 else 0)

/-- The model as `on_click` constructs it for a statement returning
`rows`: `data` is the first `get_data()` page and the attached
connector's cursor holds the rest. -/
def initialModel (rows : List α) (headers : List String) : ResultTableModel α :=
  ResultTableModel.init (rows.take FETCH_BATCH) headers (some (rows.drop FETCH_BATCH))

theorem rowCount_eq_min (s : ResultTableModel α) :
    s.rowCount = min ((s.data.length : Nat) : Int) s.rowsLoaded := by
  unfold ResultTableModel.rowCount
  split <;> omega

theorem fetchMore_rowsLoaded (s : ResultTableModel α) :
    s.fetchMore.rowsLoaded
      = s.rowsLoaded + min (((s.data.length : Nat) : Int) - s.rowsLoaded) ROWS_COUNT := rfl

/-- States reachable by cycling on `initialModel rows _` after `g`
growing cycles: the materialized data is always a whole number `j` of
fetch batches off the front of `rows` (clipped by `rows.length`), the
datasource holds the rest, and `rowsLoaded` is `25 + 25·g` clipped into
`[25, rows.length ⊔ 25]`. -/
def ModelInv (rows : List α) (g : Nat) (s : ResultTableModel α) : Prop :=
  ∃ j : Nat, 1 ≤ j
    ∧ s.data = rows.take (FETCH_BATCH * j)
    ∧ s.datasource = some (rows.drop (FETCH_BATCH * j))
    ∧ s.rowsLoaded = ((max 25 (min (25 + 25 * g) rows.length) : Nat) : Int)
    ∧ 25 + 25 * g ≤ FETCH_BATCH * j

theorem cycle_inv (rows : List α) (g : Nat) (s : ResultTableModel α)
    (h : ModelInv rows g s) :
    ModelInv rows (g + if (cycle s).2 then 1 else 0) (cycle s).1 := by
  obtain ⟨j, hj, hdata, hds, hrl, hle⟩ := h
  have hlen : s.data.length = min (FETCH_BATCH * j) rows.length := by
    rw [hdata, List.length_take]
  by_cases hgrow : ((s.data.length : Nat) : Int) > s.rowsLoaded
  · -- grow cycle: canFetchMore returns True without mutating, fetchMore reveals
    have hga : (((min (FETCH_BATCH * j) rows.length) : Nat) : Int)
        > ((max 25 (min (25 + 25 * g) rows.length) : Nat) : Int) := by
      rw [← hlen, ← hrl]
      exact hgrow
    have hc : s.canFetchMore = (true, s) := by
      unfold ResultTableModel.canFetchMore
      rw [if_pos hgrow]
    have hcy : cycle s = (s.fetchMore, true) := by
      unfold cycle
      rw [hc]
      rfl
    rw [hcy]
    show ModelInv rows (g + 1) s.fetchMore
    refine ⟨j, hj, hdata, hds, ?_, ?_⟩
    · show s.fetchMore.rowsLoaded = _
      rw [fetchMore_rowsLoaded, hrl, hlen]
      simp only [FETCH_BATCH, ROWS_COUNT] at hga hle ⊢
      push_cast at hga ⊢
      omega
    · simp only [FETCH_BATCH] at hga hle ⊢
      push_cast at hga
      omega
  · -- fetch cycle: canFetchMore materializes one more batch, returns False
    have hga : ¬ ((((min (FETCH_BATCH * j) rows.length) : Nat) : Int)
        > ((max 25 (min (25 + 25 * g) rows.length) : Nat) : Int)) := by
      rw [← hlen, ← hrl]
      exact hgrow
    have hc : s.canFetchMore = (false, s.addRecords (rows.drop (FETCH_BATCH * j))) := by
      unfold ResultTableModel.canFetchMore
      rw [if_neg hgrow, hds]
    have hcy : cycle s = (s.addRecords (rows.drop (FETCH_BATCH * j)), false) := by
      unfold cycle
      rw [hc]
      rfl
    rw [hcy]
    show ModelInv rows (g + 0) (s.addRecords (rows.drop (FETCH_BATCH * j)))
    rw [Nat.add_zero]
    refine ⟨j + 1, by omega, ?_, ?_, ?_, ?_⟩
    · show s.data ++ (rows.drop (FETCH_BATCH * j)).take FETCH_BATCH
        = rows.take (FETCH_BATCH * (j + 1))
      rw [hdata, ← List.take_add, Nat.mul_succ]
    · show some ((rows.drop (FETCH_BATCH * j)).drop FETCH_BATCH)
        = some (rows.drop (FETCH_BATCH * (j + 1)))
      rw [List.drop_drop]
      exact congrArg some (congrArg (fun n => rows.drop n) (by simp only [FETCH_BATCH]; omega))
    · show s.rowsLoaded = _
      exact hrl
    · simp only [FETCH_BATCH] at hle ⊢
      omega

theorem runCycles_inv (rows : List α) (hdrs : List String) (k : Nat) :
    ModelInv rows (growCount (initialModel rows hdrs) k)
      (runCycles (initialModel rows hdrs) k) := by
  induction k with
  | zero =>
    show ModelInv rows 0 (initialModel rows hdrs)
    refine ⟨1, Nat.le_refl 1, ?_, ?_, ?_, ?_⟩
    · show (rows.take FETCH_BATCH) = rows.take (FETCH_BATCH * 1)
      rw [Nat.mul_one]
    · show some (rows.drop FETCH_BATCH) = some (rows.drop (FETCH_BATCH * 1))
      rw [Nat.mul_one]
    · show ROWS_COUNT = ((max 25 (min (25 + 25 * 0) rows.length) : Nat) : Int)
      have h25 : max 25 (min (25 + 25 * 0) rows.length) = 25 := by omega
      rw [h25]
      rfl
    · simp only [FETCH_BATCH]
      omega
  | succ k ih =>
    exact cycle_inv rows (growCount (initialModel rows hdrs) k)
      (runCycles (initialModel rows hdrs) k) ih

set_option maxRecDepth 1000000 in
/-- C1 counterexample: a statement returning N = 1001 rows.  The initial
reveal is 25 rows; after k = 40 `{canFetchMore; fetchMore}` cycles the
claim's formula gives `min(N, 25 + 40·25) = min(1001, 1025) = 1001`, but
`rowCount` is only 1000: cycle 40 found `revealed = materialized = 1000`,
so `canFetchMore` spent the cycle materializing the next batch and
returned `False`, revealing nothing. -/
theorem rowCount_growth_formula_cex :
    (initialModel (List.replicate 1001 ()) ["h"]).rowCount = 25
    ∧ (runCycles (initialModel (List.replicate 1001 ()) ["h"]) 40).rowCount = 1000
    ∧ ¬ ((runCycles (initialModel (List.replicate 1001 ()) ["h"]) 40).rowCount
        = ((min 1001 (25 + 40 * 25) : Nat) : Int)) := by
  refine ⟨by decide, ?_, ?_⟩ <;> decide

/-- C1 (amended): after `k` successive `{canFetchMore; fetchMore}`
cycles (with `fetchMore` invoked exactly when `canFetchMore` returned
true), `rowCount` equals `min(N, 25 + 25·g)` where `N = rows.length` and
`g ≤ k` is the number of cycles in which `canFetchMore` returned true —
a cycle in which `canFetchMore` materializes a batch returns false and
reveals nothing, so it does not advance the formula.  (`25 + 25·g` is
`initial_revealed + g·DISPLAY_BATCH` whenever `N ≥ 25`; for `N < 25` all
`N` rows are revealed from the start.)  And once `rowCount` equals `N`,
`canFetchMore` returns false. -/
theorem rowCount_growth_formula (α : Type) (rows : List α) (hdrs : List String) (k : Nat) :
    (runCycles (initialModel rows hdrs) k).rowCount
      = ((min rows.length (25 + 25 * growCount (initialModel rows hdrs) k) : Nat) : Int)
    ∧ ((runCycles (initialModel rows hdrs) k).rowCount = ((rows.length : Nat) : Int) →
        ((runCycles (initialModel rows hdrs) k).canFetchMore).1 = false) := by
  obtain ⟨j, hj, hdata, hds, hrl, hle⟩ := runCycles_inv rows hdrs k
  have hlen : (runCycles (initialModel rows hdrs) k).data.length
      = min (FETCH_BATCH * j) rows.length := by
    rw [hdata, List.length_take]
  constructor
  · rw [rowCount_eq_min, hlen, hrl]
    simp only [FETCH_BATCH] at hle ⊢
    push_cast
    omega
  · intro hN
    rw [rowCount_eq_min, hlen, hrl] at hN
    rw [canFetchMore_fst, hlen, hrl]
    simp only [FETCH_BATCH] at hN hle ⊢
    push_cast at hN ⊢
    simp only [decide_eq_false_iff_not]
    omega

/-- C1 witness: with 10 rows everything is revealed immediately
(`rowCount = N = 10`), and `canFetchMore` then returns false. -/
theorem rowCount_growth_formula_witness :
    ((runCycles (initialModel (List.replicate 10 ()) ["h"]) 1).canFetchMore).1 = false :=
  (rowCount_growth_formula Unit (List.replicate 10 ()) ["h"] 1).2 (by decide)

/-- Python `str.startswith(prefix)`: the characters of `prefix` are a
prefix of the characters of `s`. -/
def startswith (s pre : String) : Bool :=
  pre.data.isPrefixOf s.data

/-- `os.path.join(a, b)` for the two-argument uses in this program: if
`b` is absolute it wins, otherwise it is appended to `a` with a
separator. -/
def path_join (a b : String) : String :=
  if startswith b "/" then b else a ++ "/" ++ b

/-- The outcome of `connector.execute(query)` as seen by `on_click`:
either the backend accepted the statement (yielding a cursor state), or
`connector.connect(...)` itself raised (no session was opened), or the
session opened but `cursor.execute(query)` raised. -/
inductive ExecResult (α : Type) where
  | ok (cur : Cursor α)
  | connectFail (e : PyErr)
  | queryFail (e : PyErr)

/-- What one click leaves behind at the presentation boundary: a result
table model installed on the view, an informational message box (title
'Message'), an error message box (title 'Error!', from a caught and
logged exception), or an exception escaping the slot uncaught. -/
inductive Outcome (α : Type) where
  | table (m : ResultTableModel α)
  | infoBox (msg : String)
  | errorBox (e : PyErr)
  | raised (e : PyErr)
deriving DecidableEq

/-- The rows the connector's cursor will still yield — the flattened
form of the `datasource` back-reference that `on_click` hands to
`ResultTableModel`. -/
def remainingRows (c : Connector α) : List α :=
  match c.cursor with
  | some cur => cur.pending
  | none => []

/-- The `try:` body of `on_click` from `connector.execute(query)` on:
fetch the first page and the headers, short-circuit with the
informational message when headers are falsy, otherwise build the model;
the two `except` clauses catch `(psycopg2.ProgrammingError,
sqlite3.OperationalError)` and `psycopg2.OperationalError`, show an
'Error!' box and log; any other exception escapes.  `get_connector`
itself is called *before* the `try`, so its `KeyError` always escapes. -/
def on_click_run (w : World) (dbType connString : String) (resp : ExecResult α) :
    Outcome α × World :=
  match get_connector (α := α) dbType connString with
  | .error e => (.raised e, w)
  | .ok c =>
    match resp with
    | .connectFail e => (if handled e then .errorBox e else .raised e, w)
    | .queryFail e =>
      (if handled e then .errorBox e else .raised e, { w with nextId := w.nextId + 1 })
    | .ok cur =>
      let wc := c.execute w cur
      match wc.2.get_data with
      | .error e => (.raised e, wc.1)
      | .ok (data, c2) =>
        match c2.get_headers with
        | .error e => (.raised e, wc.1)
        | .ok none => (.infoBox "There is no result for your query.", wc.1)
        | .ok (some hdrs) =>
          (.table (ResultTableModel.init data hdrs (some (remainingRows c2))), wc.1)

/-- `MainWidget.on_click`: default the empty connection string to
`':memory:'`; for sqlite3 with a non-sentinel locator, resolve a
relative path against `BASE_DIR` (passed here as `baseDir`) and bail out
with a message box if the resolved path is not a file — all before any
connector exists; then run the statement.  `isfile` is the state of
`os.path.isfile`. -/
def on_click (baseDir : String) (isfile : String → Bool) (w : World)
    (connString0 dbType : String) (resp : ExecResult α) : Outcome α × World :=
  let connString := if connString0 = "" then ":memory:" else connString0
  if dbType = "sqlite3" ∧ connString ≠ ":memory:" then
    let connString2 := if ¬ startswith connString "/"
      then path_join baseDir connString else connString
    if ¬ isfile connString2 then (.infoBox "There is no such database file.", w)
    else on_click_run w dbType connString2 resp
  else on_click_run w dbType connString resp

/-- Does the outcome install a `ResultTableModel` on the view? -/
def constructsModel : Outcome α → Bool
  | .table _ => true
  | _ => false

/-- Modelled from the spec: "the classified kind plus a human-readable
message is what crosses the core boundary" — a failure counts as
*classified* (into ConfigError / ConnectionError / QuerySyntaxError /
UnexpectedError) only when it is surfaced through the program's error
display path, i.e. the `except`-clause 'Error!' box.  An exception that
escapes the slot uncaught is not a classified failure of any kind. -/
def classifiedFailure : Outcome α → Bool
  | .errorBox _ => true
  | _ => false

/-- C6: for a statement that produces no result set (DB-API:
`cursor.description is None`, e.g. DDL), `execute` succeeds, the
executed connector reports headers as absent (`get_headers` returns
`None` and raises nothing), `on_click` surfaces the plain informational
message box — not an error box, nothing raised, nothing logged as error
— and no `ResultTableModel` is constructed. -/
theorem ddl_no_result_informational (α : Type) (baseDir : String)
    (isfile : String → Bool) (w : World) (cur : Cursor α)
    (hd : cur.description = none) :
    (on_click baseDir isfile w ":memory:" "sqlite3" (.ok cur)).1
        = .infoBox "There is no result for your query."
    ∧ ((Connector.init (α := α) ":memory:" DbType.sqlite3).execute w cur).2.get_headers
        = .ok none
    ∧ constructsModel (on_click baseDir isfile w ":memory:" "sqlite3" (.ok cur)).1
        = false := by
  have hh : ((Connector.init (α := α) ":memory:" DbType.sqlite3).execute w cur).2.get_headers
      = .ok none := by
    show Connector.get_headers _ = _
    unfold Connector.get_headers
    simp [Connector.init, Connector.execute, hd]
  have hrun : (on_click baseDir isfile w ":memory:" "sqlite3" (.ok cur)).1
      = .infoBox "There is no result for your query." := by
    unfold on_click on_click_run get_connector Connector.get_data Connector.get_headers
    simp [Connector.init, Connector.execute, hd]
  exact ⟨hrun, hh, by rw [hrun]; rfl⟩

/-- C6 witness: a concrete DDL-style execution. -/
theorem ddl_no_result_informational_witness :
    (on_click "/base" (fun _ => false) ⟨0, []⟩ ":memory:" "sqlite3"
        (.ok (⟨none, []⟩ : Cursor Unit))).1
      = .infoBox "There is no result for your query." :=
  (ddl_no_result_informational Unit "/base" (fun _ => false) ⟨0, []⟩ ⟨none, []⟩ rfl).1

/-- C7: for the file-based backend (sqlite3), a locator that is neither
the `':memory:'` sentinel nor absolute is joined to the fixed base
directory, and when the resolved path is not a file on disk, `on_click`
fails eagerly with the precise no-such-database-file notice and returns
before `get_connector` is ever called — the world is untouched, so no
backend session is opened.  (The spec's taxonomy classifies this
file-not-found failure as its ConnectionError class.) -/
theorem relative_locator_resolution (α : Type) (baseDir : String)
    (isfile : String → Bool) (w : World) (cs : String) (resp : ExecResult α)
    (h1 : cs ≠ "") (h2 : cs ≠ ":memory:") (h3 : startswith cs "/" = false)
    (h4 : isfile (baseDir ++ "/" ++ cs) = false) :
    on_click baseDir isfile w cs "sqlite3" resp
        = (.infoBox "There is no such database file.", w)
    ∧ path_join baseDir cs = baseDir ++ "/" ++ cs := by
  have hjoin : path_join baseDir cs = baseDir ++ "/" ++ cs := by
    unfold path_join
    rw [h3]
    rfl
  refine ⟨?_, hjoin⟩
  unfold on_click
  simp [h1, h2, h3, hjoin, h4]

/-- C7 witness: `"mydb.sqlite"` against base directory `"/base"` on an
empty filesystem. -/
theorem relative_locator_resolution_witness :
    on_click "/base" (fun _ => false) ⟨0, []⟩ "mydb.sqlite" "sqlite3"
        (.ok (⟨none, []⟩ : Cursor Unit))
      = (.infoBox "There is no such database file.", ⟨0, []⟩) :=
  (relative_locator_resolution Unit "/base" (fun _ => false) ⟨0, []⟩ "mydb.sqlite"
    (.ok ⟨none, []⟩) (by decide) (by decide) (by decide) rfl).1

/-- C8 counterexample: resolving/opening a Connector for the unknown
backend kind `"mysql"` does *not* fail with a classified ConfigError:
the dict lookup in `get_connector` raises a raw `KeyError` outside the
`try`, the exception escapes the slot uncaught, and no classified
failure crosses the boundary (no 'Error!' box, nothing logged). -/
theorem unknown_backend_kind_cex :
    (on_click "/base" (fun _ => true) ⟨0, []⟩ ":memory:" "mysql"
        (.ok (⟨none, []⟩ : Cursor Unit))).1 = .raised .keyError
    ∧ classifiedFailure (on_click "/base" (fun _ => true) ⟨0, []⟩ ":memory:" "mysql"
        (.ok (⟨none, []⟩ : Cursor Unit))).1 = false := by
  decide

/-- C8 (amended): for every backend kind outside the closed set
`{sqlite3, postgres}`, `get_connector` fails before any Connector is
constructed or session opened — but by raising `KeyError` from the
registry dict lookup, which is not caught by any `except` clause (the
call sits outside the `try`), so the failure escapes unclassified
instead of being reported as a taxonomy error. -/
theorem unknown_backend_kind_raises (α : Type) (baseDir : String)
    (isfile : String → Bool) (w : World) (cs0 kind : String) (resp : ExecResult α)
    (h1 : kind ≠ "sqlite3") (h2 : kind ≠ "postgres") :
    get_connector (α := α) kind cs0 = .error .keyError
    ∧ (on_click baseDir isfile w cs0 kind resp).1 = .raised .keyError
    ∧ (on_click baseDir isfile w cs0 kind resp).2 = w
    ∧ handled .keyError = false := by
  have hgc : ∀ s : String, get_connector (α := α) kind s = .error .keyError := by
    intro s
    unfold get_connector
    rw [if_neg h1, if_neg h2]
  have hrun : ∀ s : String, on_click_run (α := α) w kind s resp = (.raised .keyError, w) := by
    intro s
    unfold on_click_run
    rw [hgc s]
  refine ⟨hgc cs0, ?_, ?_, rfl⟩
  · unfold on_click
    simp only [ne_eq, h1, false_and, if_neg, reduceIte]
    rw [hrun]
  · unfold on_click
    simp only [ne_eq, h1, false_and, if_neg, reduceIte]
    rw [hrun]

/-- C8 witness: the unknown kind `"mysql"`. -/
theorem unknown_backend_kind_raises_witness :
    get_connector (α := Unit) "mysql" ":memory:" = .error .keyError :=
  (unknown_backend_kind_raises Unit "/base" (fun _ => true) ⟨0, []⟩ ":memory:" "mysql"
    (.ok ⟨none, []⟩) (by decide) (by decide)).1

end SQLConnector
